import Mathlib

/-!
Verification of the Verse-Pilot verse-detection pipeline.

This file is a shallow embedding, in Lean 4, of the parts of the
Verse-Pilot source that the specification's claims are about:

* the canonical reference catalog (`app/core/bible/constants.py`,
  regenerated by `generate_verse_counts.py`);
* the fast pattern-based extractor (`app/core/ai/fast_extractor.py`),
  including an executable model of the three Python regular expressions;
* the slow LLM validator (`app/core/ai/slow_validator.py`), with the
  network boundary abstracted into an explicit outcome oracle;
* the Groq online detector (`app/core/ai/detectors/online_groq.py`);
* the candidate buffer (`app/core/verse_buffer.py`) and the last
  confirmed context (`app/core/state_tracker.py`);
* the transcript-processing logic of the listener
  (`app/core/audio/listener.py`);
* the queue-draining / debounce / rejection logic of the main window
  (`app/ui/app_window.py`).

Machine integers are modelled as `Int`/`Nat` (Python integers are
unbounded), Python floats appearing in the relevant code are exact
decimal constants and are modelled as `ℚ`.  Nondeterministic
environment inputs (uuid4, time, network) are passed explicitly.
-/

namespace VersePilot

/-! ## Kernel-computable rational arithmetic

The `Rat` arithmetic of the standard library is marked irreducible,
which blocks `decide`-style evaluation of concrete states.  The
embedding therefore uses the following equivalent operations (proved
equal to the standard ones below) wherever the Python code multiplies
or subtracts floats; all float constants in the relevant code are
exact decimals, written as `mkRat` literals. -/

def qmul (a b : ℚ) : ℚ :=
  mkRat (a.num * b.num) (a.den * b.den)

def qsub (a b : ℚ) : ℚ :=
  mkRat (a.num * b.den - b.num * a.den) (a.den * b.den)

theorem qmul_eq_mul (a b : ℚ) : qmul a b = a * b := by
  unfold qmul
  rw [Rat.mkRat_eq_div]
  push_cast
  conv_rhs => rw [← Rat.num_div_den a, ← Rat.num_div_den b]
  rw [div_mul_div_comm]

theorem qsub_eq_sub (a b : ℚ) : qsub a b = a - b := by
  unfold qsub
  rw [Rat.mkRat_eq_div]
  push_cast
  have ha : ((a.den : ℚ)) ≠ 0 := by
    exact_mod_cast a.den_nz
  have hb : ((b.den : ℚ)) ≠ 0 := by
    exact_mod_cast b.den_nz
  conv_rhs => rw [← Rat.num_div_den a, ← Rat.num_div_den b]
  rw [div_sub_div _ _ ha hb]
  ring_nf

/-! ## Reference catalog

`BOOK_TO_NUM_CHAPTERS` is transcribed from `generate_verse_counts.py`
(the same table that the generated `app/core/bible/constants.py`
module starts from). -/

def BOOK_TO_NUM_CHAPTERS : List (String × Nat) :=
  [("Genesis", 50), ("Exodus", 40), ("Leviticus", 27), ("Numbers", 36), ("Deuteronomy", 34),
   ("Joshua", 24), ("Judges", 21), ("Ruth", 4), ("1 Samuel", 31), ("2 Samuel", 24),
   ("1 Kings", 22), ("2 Kings", 25), ("1 Chronicles", 29), ("2 Chronicles", 36),
   ("Ezra", 10), ("Nehemiah", 13), ("Esther", 10), ("Job", 42), ("Psalms", 150),
   ("Proverbs", 31), ("Ecclesiastes", 12), ("Song of Solomon", 8), ("Isaiah", 66),
   ("Jeremiah", 52), ("Lamentations", 5), ("Ezekiel", 48), ("Daniel", 12), ("Hosea", 14),
   ("Joel", 3), ("Amos", 9), ("Obadiah", 1), ("Jonah", 4), ("Micah", 7), ("Nahum", 3),
   ("Habakkuk", 3), ("Zephaniah", 3), ("Haggai", 2), ("Zechariah", 14), ("Malachi", 4),
   ("Matthew", 28), ("Mark", 16), ("Luke", 24), ("John", 21), ("Acts", 28), ("Romans", 16),
   ("1 Corinthians", 16), ("2 Corinthians", 13), ("Galatians", 6), ("Ephesians", 6),
   ("Philippians", 4), ("Colossians", 4), ("1 Thessalonians", 5), ("2 Thessalonians", 3),
   ("1 Timothy", 6), ("2 Timothy", 4), ("Titus", 3), ("Philemon", 1), ("Hebrews", 13),
   ("James", 5), ("1 Peter", 5), ("2 Peter", 3), ("1 John", 5), ("2 John", 1), ("3 John", 1),
   ("Jude", 1), ("Revelation", 22)]

/-- Python's `book in BOOK_TO_NUM_CHAPTERS` dictionary membership test. -/
def bookInChapters (book : String) : Bool :=
  (BOOK_TO_NUM_CHAPTERS.find? fun p => p.1 == book).isSome

/-- Python's `BOOK_TO_NUM_CHAPTERS.get(book, d)`. -/
def chaptersGetD (book : String) (d : Nat) : Nat :=
  ((BOOK_TO_NUM_CHAPTERS.find? fun p => p.1 == book).map Prod.snd).getD d

/-- Modelled from the spec: `app/core/bible/constants.py` (which holds
`BOOK_VERSE_COUNTS`, the `(canonical name, chapter) → max verse` table of
the ReferenceCatalog) is not under `src/`; only its generator and its
importers are.  The spec describes it as an immutable verse-count table,
so it is modelled here with the standard verse counts for the chapters
the claims exercise.  The shape — a per-book map from chapter number to
verse count, read with Python's `.get(chapter, 0)` — follows the code
that consumes it. -/
def BOOK_VERSE_COUNTS : List (String × List (Int × Nat)) :=
  [("Genesis", [(1, 31), (2, 25), (3, 24)]),
   ("Exodus", [(1, 22), (2, 25)]),
   ("John", [(1, 51), (3, 36)]),
   ("Psalms", [(23, 6), (119, 176)]),
   ("Matthew", [(2, 23), (5, 48)]),
   ("Luke", [(1, 80)])]

/-- Python's `BOOK_VERSE_COUNTS[book].get(chapter, 0)` (with a missing
book behaving as an empty per-book table; the generated table covers
every canonical book). -/
def verseCountD (book : String) (chapter : Int) : Nat :=
  match (BOOK_VERSE_COUNTS.find? fun p => p.1 == book).map Prod.snd with
  | none => 0
  | some tbl => ((tbl.find? fun p => p.1 == chapter).map Prod.snd).getD 0

/-- Modelled from the spec: the `BOOK_ALIASES` (`book alias → canonical
name`) table also lives in the absent `app/core/bible/constants.py`.
The spec describes it as an immutable alias map consulted with
`BOOK_ALIASES.get(book_raw, book_raw)`; a few representative aliases are
modelled. -/
def BOOK_ALIASES : List (String × String) :=
  [("Psalm", "Psalms"), ("Revelations", "Revelation"), ("Song Of Songs", "Song of Solomon")]

/-- Python's `BOOK_ALIASES.get(raw, raw)`. -/
def aliasGetD (raw : String) : String :=
  ((BOOK_ALIASES.find? fun p => p.1 == raw).map Prod.snd).getD raw

/-! ## Python string helpers -/

/-- The characters Python's `str.strip()` removes (`str.isspace` for the
ASCII range relevant to the transcripts). -/
def isPySpace (c : Char) : Bool :=
  c == ' ' || c == '\t' || c == '\n' || c == '\r' ||
  c == Char.ofNat 11 || c == Char.ofNat 12

/-- Python's `str.strip()`. -/
def pyStrip (s : String) : String :=
  ⟨((s.data.dropWhile isPySpace).reverse.dropWhile isPySpace).reverse⟩

def pyTitleGo : Bool → List Char → List Char
  | _, [] => []
  | prevAlpha, c :: cs =>
    if c.isAlpha then
      (if prevAlpha then c.toLower else c.toUpper) :: pyTitleGo true cs
    else
      c :: pyTitleGo false cs

/-- Python's `str.title()`: the first letter of each run of letters is
uppercased, the rest lowercased. -/
def pyTitle (s : String) : String :=
  ⟨pyTitleGo false s.data⟩

/-- Python's `int(s)` restricted to the strings these call sites can
produce (regex digit groups and `\w+` words): a non-empty all-digit
string parses as a decimal numeral, anything else raises `ValueError`
(modelled as `none`). -/
def pyIntOfDigits (s : String) : Option Nat :=
  if s.data ≠ [] ∧ s.data.all Char.isDigit then
    some (s.data.foldl (fun acc c => 10 * acc + (c.toNat - 48)) 0)
  else
    none

/-! ## VerseCandidate (`app/core/verse_buffer.py`)

`uuid.uuid4()` and `datetime.utcnow()` are environment inputs; the
candidate's `id` and `timestamp` are therefore explicit fields set by
whoever constructs the candidate (extractors in the source construct
them from the environment; the claims do not depend on their values). -/

structure VerseCandidate where
  id : Nat
  book : String
  chapter : Int
  verse : Int
  transcript_snippet : String
  confidence_score : ℚ
  source : String
  status : String
  validation_status : String
  is_partial : Bool
  review_required : Bool
  explanation : String
  timestamp : ℚ
deriving DecidableEq, Repr

/-! ## VerseBuffer (`app/core/verse_buffer.py`) -/

structure VerseBuffer where
  candidates : List VerseCandidate
deriving DecidableEq, Repr

def VerseBuffer.add_candidate (b : VerseBuffer) (c : VerseCandidate) : VerseBuffer :=
  ⟨b.candidates ++ [c]⟩

def VerseBuffer.get_pending (b : VerseBuffer) : List VerseCandidate :=
  b.candidates.filter fun v => v.status == "pending"

def VerseBuffer.get_live (b : VerseBuffer) : List VerseCandidate :=
  b.candidates.filter fun v => v.status == "live"

def VerseBuffer.get_discarded (b : VerseBuffer) : List VerseCandidate :=
  b.candidates.filter fun v => v.status == "discarded"

/-- `promote_to_live` sets the status of every candidate whose id
matches to "live", with no check of the current status. -/
def VerseBuffer.promote_to_live (b : VerseBuffer) (candidate_id : Nat) : VerseBuffer :=
  ⟨b.candidates.map fun v => if v.id == candidate_id then { v with status := "live" } else v⟩

/-- `discard` sets the status of every candidate whose id matches to
"discarded", with no check of the current status. -/
def VerseBuffer.discard (b : VerseBuffer) (candidate_id : Nat) : VerseBuffer :=
  ⟨b.candidates.map fun v => if v.id == candidate_id then { v with status := "discarded" } else v⟩

/-- `clear_old` keeps the candidates whose timestamp is newer than the
cutoff (`now - max_age_minutes * 60`). -/
def VerseBuffer.clear_old (b : VerseBuffer) (now : ℚ) (max_age_minutes : ℚ) : VerseBuffer :=
  ⟨b.candidates.filter fun v => decide (v.timestamp > qsub now (qmul max_age_minutes 60))⟩

/-! ## A small backtracking regex engine

Executable model of the Python `re` constructs used by
`FastVerseExtractor.REGEX_PATTERNS`: character classes, concatenation,
greedy and lazy repetition, optional groups, capturing groups and the
word boundary `\b`, with `re.IGNORECASE` folded into the literal
classes.  Matching is continuation-passing with explicit fuel (the
fuel only bounds the recursion depth of the executable model; the
Python engine is total on these patterns). -/

inductive Re where
  | eps : Re
  | cls : (Char → Bool) → Re
  | seq : Re → Re → Re
  | alt : Re → Re → Re
  | starG : Re → Re
  | starL : Re → Re
  | opt : Re → Re
  | group : Nat → Re → Re
  | bound : Re

/-- Python's `\w` over the ASCII range the transcripts use. -/
def isWordChar (c : Char) : Bool :=
  c.isAlphanum || c == '_'

/-- Backtracking matcher.  `prev` is the character just before the
current position (for `\b`); the continuation receives the rest of the
input, the new `prev`, and the captures accumulated so far.  Greedy
constructs try the longer alternative first, lazy ones the shorter,
mirroring Python's backtracking priority order. -/
def reMatch : Nat → Re → List Char → Option Char →
    (List Char → Option Char → List (Nat × String) → Option (List (Nat × String))) →
    List (Nat × String) → Option (List (Nat × String))
  | 0, _, _, _, _, _ => none
  | _ + 1, .eps, cs, prev, k, caps => k cs prev caps
  | _ + 1, .cls p, cs, _, k, caps =>
    match cs with
    | [] => none
    | c :: rest => if p c then k rest (some c) caps else none
  | fuel + 1, .seq a b, cs, prev, k, caps =>
    reMatch fuel a cs prev (fun cs2 prev2 caps2 => reMatch fuel b cs2 prev2 k caps2) caps
  | fuel + 1, .alt a b, cs, prev, k, caps =>
    (reMatch fuel a cs prev k caps) <|> (reMatch fuel b cs prev k caps)
  | fuel + 1, .opt r, cs, prev, k, caps =>
    (reMatch fuel r cs prev k caps) <|> k cs prev caps
  | fuel + 1, .starG r, cs, prev, k, caps =>
    (reMatch fuel r cs prev
      (fun cs2 prev2 caps2 =>
        if cs2.length < cs.length then reMatch fuel (.starG r) cs2 prev2 k caps2 else none)
      caps) <|> k cs prev caps
  | fuel + 1, .starL r, cs, prev, k, caps =>
    (k cs prev caps) <|>
    (reMatch fuel r cs prev
      (fun cs2 prev2 caps2 =>
        if cs2.length < cs.length then reMatch fuel (.starL r) cs2 prev2 k caps2 else none)
      caps)
  | fuel + 1, .group n r, cs, prev, k, caps =>
    reMatch fuel r cs prev
      (fun cs2 prev2 caps2 =>
        k cs2 prev2 ((n, ⟨cs.take (cs.length - cs2.length)⟩) :: caps2))
      caps
  | _ + 1, .bound, cs, prev, k, caps =>
    let pw := match prev with | some c => isWordChar c | none => false
    let nw := match cs.head? with | some c => isWordChar c | none => false
    if pw != nw then k cs prev caps else none

/-- Python's `pattern.search`: try a match at each start position, left
to right, returning the captures of the first (leftmost) match. -/
def reSearch (re : Re) (fuel : Nat) : List Char → Option Char → Option (List (Nat × String))
  | cs, prev =>
    match reMatch fuel re cs prev (fun _ _ caps => some caps) [] with
    | some caps => some caps
    | none =>
      match cs with
      | [] => none
      | c :: rest => reSearch re fuel rest (some c)

/-- Fuel that comfortably covers the recursion depth of any match
attempt of the three extractor patterns on the given input. -/
def searchFuel (cs : List Char) : Nat :=
  10 * cs.length + 200

/-! ## FastVerseExtractor (`app/core/ai/fast_extractor.py`) -/

def spoken_to_number : List (String × Nat) :=
  [("one", 1), ("two", 2), ("three", 3), ("four", 4), ("five", 5),
   ("six", 6), ("seven", 7), ("eight", 8), ("nine", 9), ("ten", 10),
   ("eleven", 11), ("twelve", 12), ("thirteen", 13), ("fourteen", 14),
   ("fifteen", 15), ("sixteen", 16), ("seventeen", 17), ("eighteen", 18),
   ("nineteen", 19), ("twenty", 20)]

def pyLower (s : String) : String :=
  ⟨s.data.map Char.toLower⟩

/-- `FastVerseExtractor.normalize_number`: `int(val)` if `val` is a
numeral, else the spoken-number table on `val.lower()`, else `None`. -/
def normalize_number : Option String → Option Nat
  | none => none
  | some val =>
    match pyIntOfDigits val with
    | some n => some n
    | none => (spoken_to_number.find? fun p => p.1 == pyLower val).map Prod.snd

/-- A case-insensitive literal character (`re.IGNORECASE`). -/
def litChar (c : Char) : Re :=
  .cls fun x => x.toLower == c.toLower

/-- A case-insensitive literal word. -/
def litWord (s : String) : Re :=
  s.data.foldr (fun c acc => .seq (litChar c) acc) .eps

def reSeq (l : List Re) : Re :=
  l.foldr .seq .eps

/-- `\w+` -/
def reWplus : Re := .seq (.cls isWordChar) (.starG (.cls isWordChar))

/-- `\s+` -/
def reSplus : Re := .seq (.cls isPySpace) (.starG (.cls isPySpace))

/-- `\d{1,3}` (greedy) -/
def reD13 : Re :=
  .seq (.cls Char.isDigit) (.opt (.seq (.cls Char.isDigit) (.opt (.cls Char.isDigit))))

/-- `[:\s]+` -/
def reColonSpacePlus : Re :=
  .seq (.cls fun c => c == ':' || isPySpace c) (.starG (.cls fun c => c == ':' || isPySpace c))

/-- `(?P<book>\w+(?:\s+\w+)*?)` — capture index 0. -/
def reBookGroup : Re :=
  .group 0 (.seq reWplus (.starL (.seq reSplus reWplus)))

/-- `\b(?P<book>\w+(?:\s+\w+)*?)\s+chapter\s+(?P<chapter>\d{1,3})\s+(?:verse\s+)?(?P<verse>\d{1,3})\b`
with the chapter group at capture index 1 and the verse group at 2. -/
def fastPattern1 : Re :=
  reSeq [.bound, reBookGroup, reSplus, litWord "chapter", reSplus, .group 1 reD13,
         reSplus, .opt (.seq (litWord "verse") reSplus), .group 2 reD13, .bound]

/-- `\b(?P<book>\w+(?:\s+\w+)*?)\s+(?P<chapter>\d{1,3})[:\s]+(?P<verse>\d{1,3})\b` -/
def fastPattern2 : Re :=
  reSeq [.bound, reBookGroup, reSplus, .group 1 reD13, reColonSpacePlus, .group 2 reD13, .bound]

/-- `\b(?P<book>\w+(?:\s+\w+)*?)\s+chapter\s+(?P<chapter_word>\w+)\s+verse\s+(?P<verse_word>\w+)\b`
(the word groups take the same capture indices 1 and 2, matching the
`groupdict().get("chapter") or groupdict().get("chapter_word")` reads). -/
def fastPattern3 : Re :=
  reSeq [.bound, reBookGroup, reSplus, litWord "chapter", reSplus, .group 1 reWplus,
         reSplus, litWord "verse", reSplus, .group 2 reWplus, .bound]

def REGEX_PATTERNS : List Re :=
  [fastPattern1, fastPattern2, fastPattern3]

def capGet (caps : List (Nat × String)) (n : Nat) : Option String :=
  (caps.find? fun p => p.1 == n).map Prod.snd

/-- The body of `extract_candidate` after a pattern has matched: book
alias resolution, number normalisation, the three catalog validations,
and on success the single returned candidate with its fixed fields.  A
`none` result corresponds to `continue` (fall through to the next
pattern). -/
def checkMatch (transcript : String) (caps : List (Nat × String)) : Option VerseCandidate :=
  let book_raw := pyTitle (pyStrip ((capGet caps 0).getD ""))
  let book := aliasGetD book_raw
  match normalize_number (capGet caps 1), normalize_number (capGet caps 2) with
  | some chapter_num, some verse_num =>
    if book ≠ "" ∧ chapter_num ≠ 0 ∧ verse_num ≠ 0 then
      if bookInChapters book then
        if 1 ≤ chapter_num ∧ chapter_num ≤ chaptersGetD book 0 then
          if 1 ≤ verse_num ∧ verse_num ≤ verseCountD book (chapter_num : Int) then
            some { id := 0, book := book, chapter := (chapter_num : Int),
                   verse := (verse_num : Int), transcript_snippet := transcript,
                   confidence_score := mkRat 19 20, source := "fast", status := "pending",
                   validation_status := "unknown", is_partial := false,
                   review_required := false,
                   explanation := "Matched and validated by fast extractor",
                   timestamp := 0 }
          else none
        else none
      else none
    else none
  | _, _ => none

def extractLoop (transcript : String) : List Re → Option VerseCandidate
  | [] => none
  | p :: ps =>
    match reSearch p (searchFuel transcript.data) transcript.data none with
    | none => extractLoop transcript ps
    | some caps =>
      match checkMatch transcript caps with
      | some c => some c
      | none => extractLoop transcript ps

/-- `FastVerseExtractor.extract_candidate`. -/
def extract_candidate (transcript : String) : Option VerseCandidate :=
  extractLoop transcript REGEX_PATTERNS

/-! ## SlowValidator (`app/core/ai/slow_validator.py`) -/

/-- `is_known_book`: membership in the canonical chapter table. -/
def is_known_book (book : String) : Bool :=
  bookInChapters book

/-- `is_valid_reference`: `False` iff `chapter > BOOK_TO_NUM_CHAPTERS.get(book, 999)`.
Note that neither a lower bound on the chapter nor the verse is checked. -/
def is_valid_reference (book : String) (chapter : Int) : Bool :=
  !(chapter > (chaptersGetD book 999 : Int))

/-- One JSON object of the Gemini response list, as the parsing loop
reads it: every field is read with a `.get` default, so each is
optional here.  Numeric fields have already passed `int(...)` /
`float(...)` (a failure there raises `ValueError`, which the
surrounding handler does not catch — no claim depends on that path). -/
structure GeminiItem where
  book : Option String
  chapter : Option Int
  verse : Option Int
  certainty : Option ℚ
  explanation : Option String
deriving DecidableEq, Repr

/-- The per-item body of the `validate_with_gemini` candidate loop
(`slow_validator.py` lines 124–161): default extraction, the
missing-essentials skip, the unknown-book discard, the chapter
validation, and the candidate construction.  `none` is `continue`. -/
def parseGeminiItem (transcript : String) (item : GeminiItem) : Option VerseCandidate :=
  let book := pyTitle (item.book.getD "")
  let chapter := item.chapter.getD 0
  let verse := item.verse.getD 0
  if book ≠ "" ∧ chapter ≠ 0 ∧ verse ≠ 0 then
    if is_known_book book then
      let validation_status := if is_valid_reference book chapter then "valid" else "invalid_chapter"
      let certainty := item.certainty.getD (mkRat 1 2)
      some { id := 0, book := book, chapter := chapter, verse := verse,
             transcript_snippet := transcript, confidence_score := certainty,
             source := "slow", status := "pending",
             validation_status := validation_status,
             is_partial := !decide (certainty ≥ mkRat 4 5),
             review_required := decide (certainty < mkRat 4 5),
             explanation := item.explanation.getD "No explanation provided",
             timestamp := 0 }
    else none
  else none

/-- The full candidate loop over the parsed response list. -/
def parseGeminiItems (transcript : String) (items : List GeminiItem) : List VerseCandidate :=
  items.filterMap (parseGeminiItem transcript)

/-- The decoded body of a Gemini HTTP response, abstracting the JSON
and markdown-fence handling of `validate_with_gemini`: either the text
failed to extract/decode, or it contained the `review_required` marker,
or it decoded to a single object (wrapped into a list by the code), or
to a list of objects. -/
inductive GeminiBody where
  | malformed : GeminiBody
  | reviewRequired : GeminiBody
  | itemsDict : GeminiItem → GeminiBody
  | items : List GeminiItem → GeminiBody
deriving DecidableEq, Repr

/-- The outcome of the single `requests.post` call in
`validate_with_gemini`: either the call raised (connection-level
failure) or it returned a status code and a body. -/
inductive PostOutcome where
  | exn : PostOutcome
  | resp : Nat → GeminiBody → PostOutcome
deriving DecidableEq, Repr

/-- `validate_with_gemini`, with the network boundary explicit.  The
call makes exactly one request; `requests.post` raising is not caught
anywhere in the function, so that outcome propagates as an exception
(`Except.error`).  Every other failure is absorbed into `[]`. -/
def validate_with_gemini (api_key_present : Bool) (outcome : PostOutcome)
    (transcript : String) : Except Unit (List VerseCandidate) :=
  if !api_key_present then .ok []
  else
    match outcome with
    | .exn => .error ()
    | .resp status body =>
      if status ≠ 200 then .ok []
      else
        match body with
        | .malformed => .ok []
        | .reviewRequired => .ok []
        | .itemsDict item => .ok (parseGeminiItems transcript [item])
        | .items items => .ok (parseGeminiItems transcript items)

/-! ## OnlineGroqDetector (`app/core/ai/detectors/online_groq.py`) -/

/-- The outcome of one attempt of the Groq request loop, as the code
distinguishes them: a connection-level `RequestException`, an HTTP
error raised by `raise_for_status`, an empty `content` field
(`continue` without backoff), undecodable content (retry with
backoff), a decoded payload that is not a verse object (return `None`
without retrying), or a successfully parsed verse object. -/
inductive GroqOutcome where
  | exnConn : GroqOutcome
  | httpError : GroqOutcome
  | emptyContent : GroqOutcome
  | parseFail : GroqOutcome
  | notVerse : GroqOutcome
  | ok : String → Int → Int → GroqOutcome
deriving DecidableEq, Repr

/-- A network/HTTP failure in the error-handling taxonomy (the two
`except` clauses of the attempt loop). -/
def GroqOutcome.isTransientNet : GroqOutcome → Bool
  | .exnConn => true
  | .httpError => true
  | _ => false

/-- The result of `OnlineGroqDetector.detect`: the returned value and
the list of backoff sleeps performed (in seconds, in order). -/
structure GroqRun where
  result : Option (String × Int × Int)
  sleeps : List Nat
deriving DecidableEq, Repr

/-- The `for attempt in range(retries)` loop of `detect`.  `attempt` is
the current index, `remaining` the iterations left.  On a transient
failure the loop sleeps `2 ** attempt` seconds — but only when
`attempt < retries - 1`; an empty content field retries with no sleep
(`continue` skips the backoff block). -/
def groqLoop (oracle : Nat → GroqOutcome) (retries : Nat) : Nat → Nat → GroqRun
  | _, 0 => { result := none, sleeps := [] }
  | attempt, remaining + 1 =>
    match oracle attempt with
    | .ok b c v => { result := some (b, c, v), sleeps := [] }
    | .notVerse => { result := none, sleeps := [] }
    | .emptyContent => groqLoop oracle retries (attempt + 1) remaining
    | .parseFail =>
      let r := groqLoop oracle retries (attempt + 1) remaining
      if attempt < retries - 1 then { r with sleeps := 2 ^ attempt :: r.sleeps } else r
    | .exnConn =>
      let r := groqLoop oracle retries (attempt + 1) remaining
      if attempt < retries - 1 then { r with sleeps := 2 ^ attempt :: r.sleeps } else r
    | .httpError =>
      let r := groqLoop oracle retries (attempt + 1) remaining
      if attempt < retries - 1 then { r with sleeps := 2 ^ attempt :: r.sleeps } else r

/-- `OnlineGroqDetector.detect` with the per-attempt outcomes supplied
by an oracle.  `retries` defaults to 2 in `__init__`. -/
def groqDetect (available : Bool) (retries : Nat) (oracle : Nat → GroqOutcome) : GroqRun :=
  if available then groqLoop oracle retries 0 retries
  else { result := none, sleeps := [] }

/-- The constructor default `retries=2`. -/
def GROQ_DEFAULT_RETRIES : Nat := 2

/-! ## VerseListener transcript processing (`app/core/audio/listener.py`)

`_process_transcript_logic` is shared by the audio path and the manual
injection path; `set_last_confirmed`/`get_last_confirmed` from
`app/core/state_tracker.py` are the `last_confirmed` component of the
state.

The slow branch calls `validate_with_gemini(transcript,
api_key=self.gemini_api_key, model_id=self.gemini_model_id,
last_book=last_book, last_chapter=last_chapter)` (listener lines
248–254), but `validate_with_gemini` is declared as
`validate_with_gemini(transcript, context="", last_book="",
last_chapter=0)` (slow_validator line 61) and accepts neither
`api_key` nor `model_id`: the call raises `TypeError` before the
function body runs.  Nothing after line 248 of the listener — the
empty-result check, the range filters, `set_last_confirmed`, the
buffer append, the confirmation signal and the queue push (lines
256–275) — can execute; the run terminates exceptionally with only
`last_processed_transcript` already updated.  (The audio caller wraps
the run in a `try/except` that logs the error; the manual-injection
thread has no handler.)  The embedding records this outcome in the
`raised` flag of the result. -/

/-- The dict built by `VerseListener._format_candidate_for_queue`. -/
structure QueueEntry where
  book : String
  chapter : Int
  verse : Int
  reference : String
  raw_transcript : String
  confidence : ℚ
  source : String
  timestamp : ℚ
  explanation : String
deriving DecidableEq, Repr

def format_candidate_for_queue (c : VerseCandidate) : QueueEntry :=
  { book := c.book, chapter := c.chapter, verse := c.verse,
    reference := c.book ++ " " ++ toString c.chapter ++ ":" ++ toString c.verse,
    raw_transcript := c.transcript_snippet,
    confidence := qmul c.confidence_score 100,
    source := c.source, timestamp := c.timestamp, explanation := c.explanation }

structure ListenerState where
  last_processed_transcript : Option String
  /-- `state_tracker._last_book`, `state_tracker._last_chapter`. -/
  last_confirmed : Option String × Option Int
  buffer : VerseBuffer
  verse_queue : List QueueEntry
  /-- dicts emitted on the `verse_needs_confirmation` signal. -/
  confirmations : List QueueEntry
deriving DecidableEq, Repr

structure ProcessResult where
  /-- the listener state when the run ends (normally or exceptionally) -/
  state : ListenerState
  /-- the duplicate-transcript guard fired and the run was skipped -/
  skipped : Bool
  /-- the `validate_with_gemini(...)` call was reached on this run -/
  slow_called : Bool
  /-- the run ended in the `TypeError` raised by that call -/
  raised : Bool
deriving DecidableEq, Repr

/-- `VerseListener._process_transcript_logic`.  On the slow branch the
`validate_with_gemini` call raises `TypeError` (see the section
comment), so the run ends there with the state as of line 248: only
`last_processed_transcript` has been updated. -/
def process_transcript_logic (ai_available : Bool)
    (transcript : String) (s : ListenerState) : ProcessResult :=
  if transcript ≠ "" ∧ s.last_processed_transcript = some transcript then
    { state := s, skipped := true, slow_called := false, raised := false }
  else
    let s1 := { s with last_processed_transcript := some transcript }
    match extract_candidate transcript with
    | some candidate =>
      { state := { s1 with
                   verse_queue := s1.verse_queue ++ [format_candidate_for_queue candidate],
                   buffer := s1.buffer.add_candidate candidate },
        skipped := false, slow_called := false, raised := false }
    | none =>
      if ai_available then
        { state := s1, skipped := false, slow_called := true, raised := true }
      else
        { state := s1, skipped := false, slow_called := false, raised := false }

/-! ## AppWindow queue processing (`app/ui/app_window.py`)

The Tk main window drains `verse_queue`, applies the debounce and
rejection logic and routes candidates to direct display or the
confirmation popup.  Two different key representations appear in the
source: `check_verse_queue` builds the tuple
`(book, int(chapter), int(verse))`, while `_get_verse_key` builds the
string `f"{book} {chapter}:{verse}"` — and `rejected_keys` receives
strings but is probed with tuples.  `PyKey` models both value shapes
so that this comparison behaves exactly as in Python. -/

abbrev VKey := String × Int × Int

/-- A Python value used as a verse key: either the tuple form or the
string form.  Values of different shapes are never equal, exactly as
in Python. -/
inductive PyKey where
  | tup : VKey → PyKey
  | str : String → PyKey
deriving DecidableEq, Repr

/-- `AppWindow._get_verse_key`: the string form. -/
def get_verse_key (vd : QueueEntry) : String :=
  vd.book ++ " " ++ toString vd.chapter ++ ":" ++ toString vd.verse

/-- The tuple key built inside `check_verse_queue`. -/
def mkKey (vd : QueueEntry) : VKey :=
  (vd.book, vd.chapter, vd.verse)

structure AWSettings where
  require_approval : Bool
  confidence_threshold : ℚ
deriving DecidableEq, Repr

structure AWState where
  confirmation_popup : Option QueueEntry
  recent_verse : Option QueueEntry
  /-- pending verse dicts with their `buffer_timestamp` -/
  confirmation_buffer : List (QueueEntry × ℚ)
  live_history : List QueueEntry
  rejected_keys : List PyKey
  /-- `(book, chapter, verse) ↦ (timestamp, confidence)` -/
  recent_detections : List (VKey × ℚ × ℚ)
  /-- keys handed to `process_verse` (rendered/displayed), in order -/
  outputs : List VKey
deriving DecidableEq, Repr

def rdLookup (rd : List (VKey × ℚ × ℚ)) (k : VKey) : Option (ℚ × ℚ) :=
  (rd.find? fun p => p.1 == k).map Prod.snd

/-- `self.recent_detections[key] = {...}`: replace or insert. -/
def rdInsert (rd : List (VKey × ℚ × ℚ)) (k : VKey) (v : ℚ × ℚ) : List (VKey × ℚ × ℚ) :=
  if (rd.find? fun p => p.1 == k).isSome then
    rd.map fun p => if p.1 == k then (k, v) else p
  else
    rd ++ [(k, v)]

/-- One `check_verse_queue` poll that dequeues the item `vd` at time
`now`.  When a confirmation popup is open the poll reschedules without
dequeuing, leaving the state unchanged.  The `key in
self.confirmation_buffer` check of the source compares the tuple
against the buffered dicts and therefore never fires; it is modelled
by its (always false) outcome. -/
def check_verse_queue_item (settings : AWSettings) (now : ℚ) (vd : QueueEntry)
    (s : AWState) : AWState :=
  if s.confirmation_popup.isSome then s
  else if vd.book = "" ∨ vd.chapter = 0 ∨ vd.verse = 0 then s
  else
    let key := mkKey vd
    let confidence := vd.confidence
    let dropDup :=
      match rdLookup s.recent_detections key with
      | some (ts, pc) => decide (qsub now ts < 15) && decide (confidence ≤ pc)
      | none => false
    if dropDup then s
    else
      let s1 := { s with
                  recent_detections := rdInsert s.recent_detections key (now, confidence),
                  recent_verse := some vd }
      if PyKey.tup key ∈ s1.rejected_keys then s1
      else if s1.live_history.any fun v =>
          v.book == vd.book && v.chapter == vd.chapter && v.verse == vd.verse then s1
      else if settings.require_approval ∧ confidence < settings.confidence_threshold then
        { s1 with confirmation_buffer := s1.confirmation_buffer ++ [(vd, now)],
                  confirmation_popup := some vd }
      else
        { s1 with live_history := s1.live_history ++ [vd], outputs := s1.outputs ++ [key] }

/-- `AppWindow._on_confirmation_result` for the open popup: clear the
popup, filter the pending buffer by the string key, then either accept
(append to history and render) or add the string key to
`rejected_keys`. -/
def on_confirmation_result (approved : Bool) (s : AWState) : AWState :=
  match s.confirmation_popup with
  | none => s
  | some vd =>
    let key_to_remove := get_verse_key vd
    let s1 := { s with
                confirmation_popup := none,
                confirmation_buffer :=
                  s.confirmation_buffer.filter fun p => get_verse_key p.1 != key_to_remove }
    if approved then
      { s1 with live_history := s1.live_history ++ [vd], outputs := s1.outputs ++ [mkKey vd] }
    else
      { s1 with rejected_keys := s1.rejected_keys ++ [PyKey.str key_to_remove] }

/-- `AppWindow._queue_cleanup`: drop pending entries older than 60s. -/
def queue_cleanup (now : ℚ) (s : AWState) : AWState :=
  { s with confirmation_buffer := s.confirmation_buffer.filter fun p => decide (qsub now p.2 ≤ 60) }

/-- `AppWindow._cleanup_recent_detections`: drop detections older than 30s. -/
def detections_cleanup (now : ℚ) (s : AWState) : AWState :=
  { s with recent_detections := s.recent_detections.filter fun p => decide (p.2.1 > qsub now 30) }

/-- The events the window reacts to. -/
inductive AWEvent where
  | detect : ℚ → QueueEntry → AWEvent
  | confirmResult : Bool → AWEvent
  | queueCleanup : ℚ → AWEvent
  | detectionsCleanup : ℚ → AWEvent
deriving DecidableEq, Repr

def awStep (settings : AWSettings) (s : AWState) : AWEvent → AWState
  | .detect now vd => check_verse_queue_item settings now vd s
  | .confirmResult approved => on_confirmation_result approved s
  | .queueCleanup now => queue_cleanup now s
  | .detectionsCleanup now => detections_cleanup now s

def awRun (settings : AWSettings) (s : AWState) (events : List AWEvent) : AWState :=
  events.foldl (awStep settings) s

/-! ## Helper lemmas -/

/-- A convenient base candidate for concrete instances; individual
fields are overridden at each use. -/
def baseCand : VerseCandidate :=
  { id := 0, book := "John", chapter := 3, verse := 16, transcript_snippet := "",
    confidence_score := mkRat 1 2, source := "slow", status := "pending",
    validation_status := "unknown", is_partial := false, review_required := false,
    explanation := "", timestamp := 0 }

/-- For a known book the `.get` default is irrelevant. -/
theorem chaptersGetD_eq_of_known {b : String} (h : bookInChapters b = true) (d d' : Nat) :
    chaptersGetD b d = chaptersGetD b d' := by
  unfold bookInChapters at h
  unfold chaptersGetD
  cases hf : (BOOK_TO_NUM_CHAPTERS.find? fun p => p.1 == b) with
  | none => rw [hf] at h; simp at h
  | some p => simp [hf]

/-- Everything `checkMatch` guarantees about a candidate it returns. -/
theorem checkMatch_sound {t : String} {caps : List (Nat × String)} {c : VerseCandidate}
    (h : checkMatch t caps = some c) :
    c.confidence_score = mkRat 19 20 ∧ c.source = "fast" ∧ c.status = "pending" ∧
    c.validation_status = "unknown" ∧ c.is_partial = false ∧ c.review_required = false ∧
    c.transcript_snippet = t ∧ bookInChapters c.book = true ∧
    1 ≤ c.chapter ∧ c.chapter ≤ (chaptersGetD c.book 0 : Int) ∧
    1 ≤ c.verse ∧ c.verse ≤ (verseCountD c.book c.chapter : Int) := by
  unfold checkMatch at h
  cases hch : normalize_number (capGet caps 1) with
  | none => rw [hch] at h; simp at h
  | some chapter_num =>
    cases hv : normalize_number (capGet caps 2) with
    | none => rw [hch, hv] at h; simp at h
    | some verse_num =>
      rw [hch, hv] at h
      simp only at h
      split at h
      · split at h
        · split at h
          · split at h
            · rename_i hall hbook hchap hverse
              cases h
              refine ⟨rfl, rfl, rfl, rfl, rfl, rfl, rfl, hbook, ?_, ?_, ?_, ?_⟩
              · exact Int.ofNat_le.mpr hchap.1
              · exact Int.ofNat_le.mpr hchap.2
              · exact Int.ofNat_le.mpr hverse.1
              · exact Int.ofNat_le.mpr hverse.2
            · exact absurd h (by simp)
          · exact absurd h (by simp)
        · exact absurd h (by simp)
      · exact absurd h (by simp)

/-- Everything the extractor loop guarantees about a returned candidate. -/
theorem extractLoop_sound {t : String} {ps : List Re} {c : VerseCandidate}
    (h : extractLoop t ps = some c) :
    c.confidence_score = mkRat 19 20 ∧ c.source = "fast" ∧ c.status = "pending" ∧
    c.validation_status = "unknown" ∧ c.is_partial = false ∧ c.review_required = false ∧
    c.transcript_snippet = t ∧ bookInChapters c.book = true ∧
    1 ≤ c.chapter ∧ c.chapter ≤ (chaptersGetD c.book 0 : Int) ∧
    1 ≤ c.verse ∧ c.verse ≤ (verseCountD c.book c.chapter : Int) := by
  induction ps with
  | nil => simp [extractLoop] at h
  | cons p ps ih =>
    unfold extractLoop at h
    split at h
    · exact ih h
    · split at h
      · rename_i heq
        cases h
        exact checkMatch_sound heq
      · exact ih h

/-- `extract_candidate` version of the soundness lemma. -/
theorem extract_candidate_sound {t : String} {c : VerseCandidate}
    (h : extract_candidate t = some c) :
    c.confidence_score = mkRat 19 20 ∧ c.source = "fast" ∧ c.status = "pending" ∧
    c.validation_status = "unknown" ∧ c.is_partial = false ∧ c.review_required = false ∧
    c.transcript_snippet = t ∧ bookInChapters c.book = true ∧
    1 ≤ c.chapter ∧ c.chapter ≤ (chaptersGetD c.book 0 : Int) ∧
    1 ≤ c.verse ∧ c.verse ≤ (verseCountD c.book c.chapter : Int) :=
  extractLoop_sound h

/-! ## C2 — candidate status transitions in the buffer -/

/-- C2 counterexample: the claim says no operation ever moves a
candidate out of the discarded state, but `promote_to_live` sets the
status unconditionally: a buffer holding one discarded candidate (id 1)
is moved back to live by `promote_to_live 1`. -/
theorem buffer_terminal_status_counterexample :
    ¬ (∀ (b : VerseBuffer) (cid i : Nat) (v v' : VerseCandidate),
        b.candidates[i]? = some v →
        (b.promote_to_live cid).candidates[i]? = some v' →
        v.status = "discarded" → v'.status = "discarded") := by
  intro h
  have h2 := h ⟨[{ baseCand with id := 1, status := "discarded" }]⟩ 1 0
      { baseCand with id := 1, status := "discarded" }
      { baseCand with id := 1, status := "live" }
      (by decide) (by decide) (by decide)
  exact absurd h2 (by decide)

/-- C2 (amended): `promote_to_live` and `discard` set the status of the
matched candidate unconditionally, so live→discarded and
discarded→live transitions are possible; what does hold is that no
buffer operation ever returns a candidate to pending — after
`promote_to_live` or `discard`, a candidate is pending only if it was
already pending, and `clear_old` only deletes candidates. -/
theorem buffer_never_back_to_pending (b : VerseBuffer) (cid i : Nat)
    (v' : VerseCandidate) :
    ((b.promote_to_live cid).candidates[i]? = some v' →
      ∃ v, b.candidates[i]? = some v ∧ (v'.status = "pending" → v.status = "pending")) ∧
    ((b.discard cid).candidates[i]? = some v' →
      ∃ v, b.candidates[i]? = some v ∧ (v'.status = "pending" → v.status = "pending")) ∧
    (∀ now age, v' ∈ (b.clear_old now age).candidates → v' ∈ b.candidates) := by
  refine ⟨?_, ?_, ?_⟩
  · intro h
    simp only [VerseBuffer.promote_to_live, List.getElem?_map] at h
    cases hv : b.candidates[i]? with
    | none => rw [hv] at h; simp at h
    | some v =>
      rw [hv] at h
      simp only [Option.map_some'] at h
      cases h
      refine ⟨v, rfl, ?_⟩
      intro hp
      by_cases hid : (v.id == cid) = true
      · rw [if_pos hid] at hp
        simp at hp
      · rw [if_neg hid] at hp
        exact hp
  · intro h
    simp only [VerseBuffer.discard, List.getElem?_map] at h
    cases hv : b.candidates[i]? with
    | none => rw [hv] at h; simp at h
    | some v =>
      rw [hv] at h
      simp only [Option.map_some'] at h
      cases h
      refine ⟨v, rfl, ?_⟩
      intro hp
      by_cases hid : (v.id == cid) = true
      · rw [if_pos hid] at hp
        simp at hp
      · rw [if_neg hid] at hp
        exact hp
  · intro now age hmem
    exact List.mem_of_mem_filter hmem

/-- Witness for `buffer_never_back_to_pending` at a concrete buffer:
promoting the single pending candidate of a one-element buffer. -/
theorem buffer_never_back_to_pending_witness :
    ∃ v, (⟨[{ baseCand with id := 1 }]⟩ : VerseBuffer).candidates[0]? = some v ∧
      (({ baseCand with id := 1, status := "live" } : VerseCandidate).status = "pending" →
        v.status = "pending") :=
  (buffer_never_back_to_pending ⟨[{ baseCand with id := 1 }]⟩ 1 0
    { baseCand with id := 1, status := "live" }).1 (by decide)

/-! ## C1 — what `validation_status = "valid"` guarantees -/

/-- C1 counterexample: the slow validator marks a candidate `valid`
after checking only that the chapter does not exceed the chapter
count; neither `1 ≤ chapter` nor any verse bound is checked.  The item
`{book: "Genesis", chapter: -5, verse: 3}` yields a candidate with
`validation_status = "valid"`, chapter `-5 < 1`, and verse `3`
exceeding `max_verse(Genesis, -5) = 0`. -/
theorem valid_status_bounds_counterexample :
    ¬ (∀ c ∈ parseGeminiItems "t"
          [⟨some "Genesis", some (-5), some 3, some (mkRat 9 10), some "ctx"⟩],
        c.validation_status = "valid" →
        1 ≤ c.chapter ∧ c.chapter ≤ (chaptersGetD c.book 0 : Int) ∧
        1 ≤ c.verse ∧ c.verse ≤ (verseCountD c.book c.chapter : Int)) := by
  decide

/-- C1 (amended): for every candidate the pipeline produces with
`validation_status = "valid"` — only the slow path ever sets it — the
book is a known book and `chapter ≤ max_chapter(book)`; the lower
chapter bound and the verse bounds are not implied.  Fast-path
candidates (whose `validation_status` stays `"unknown"`) do satisfy
`1 ≤ chapter ≤ max_chapter(book)` and `1 ≤ verse ≤ max_verse(book,
chapter)` outright. -/
theorem valid_status_chapter_bound :
    (∀ (t : String) (items : List GeminiItem) (c : VerseCandidate),
        c ∈ parseGeminiItems t items → c.validation_status = "valid" →
        bookInChapters c.book = true ∧ c.chapter ≤ (chaptersGetD c.book 0 : Int)) ∧
    (∀ (t : String) (c : VerseCandidate), extract_candidate t = some c →
        c.validation_status = "unknown" ∧
        1 ≤ c.chapter ∧ c.chapter ≤ (chaptersGetD c.book 0 : Int) ∧
        1 ≤ c.verse ∧ c.verse ≤ (verseCountD c.book c.chapter : Int)) := by
  constructor
  · intro t items c hc hval
    rw [parseGeminiItems, List.mem_filterMap] at hc
    obtain ⟨item, _, hp⟩ := hc
    simp only [parseGeminiItem] at hp
    split at hp
    · split at hp
      · rename_i hknown
        cases hp
        by_cases hv : is_valid_reference (pyTitle (item.book.getD "")) (item.chapter.getD 0) = true
        · refine ⟨hknown, ?_⟩
          unfold is_valid_reference at hv
          rw [Bool.not_eq_true'] at hv
          have hle : item.chapter.getD 0 ≤ (chaptersGetD (pyTitle (item.book.getD "")) 999 : Int) := by
            have := of_decide_eq_false hv
            omega
          have hdd : chaptersGetD (pyTitle (item.book.getD "")) 999 =
              chaptersGetD (pyTitle (item.book.getD "")) 0 :=
            chaptersGetD_eq_of_known hknown 999 0
          rw [hdd] at hle
          exact hle
        · rw [Bool.not_eq_true] at hv
          simp only [hv, if_neg] at hval
          exact absurd hval (by decide)
      · exact absurd hp (by simp)
    · exact absurd hp (by simp)
  · intro t c h
    obtain ⟨-, -, -, hvs, -, -, -, -, h9, h10, h11, h12⟩ := extract_candidate_sound h
    exact ⟨hvs, h9, h10, h11, h12⟩

/-- Witness for `valid_status_chapter_bound`: the slow part applied to
the item `{book: "Genesis", chapter: 1, verse: 1, certainty: 0.9}` and
the fast part applied to the transcript `"Genesis 1:1"`. -/
theorem valid_status_chapter_bound_witness :
    (bookInChapters "Genesis" = true ∧ (1 : Int) ≤ (chaptersGetD "Genesis" 0 : Int)) ∧
    ("unknown" = "unknown" ∧ (1 : Int) ≤ 1 ∧ (1 : Int) ≤ (chaptersGetD "Genesis" 0 : Int) ∧
      (1 : Int) ≤ 1 ∧ (1 : Int) ≤ (verseCountD "Genesis" 1 : Int)) := by
  constructor
  · have h := valid_status_chapter_bound.1 "t"
      [⟨some "Genesis", some 1, some 1, some (mkRat 9 10), some "ctx"⟩]
      { id := 0, book := "Genesis", chapter := 1, verse := 1, transcript_snippet := "t",
        confidence_score := mkRat 9 10, source := "slow", status := "pending",
        validation_status := "valid", is_partial := false, review_required := false,
        explanation := "ctx", timestamp := 0 }
      (by decide) (by decide)
    exact ⟨h.1, le_trans (by decide) h.2⟩
  · have h := valid_status_chapter_bound.2 "Genesis 1:1"
      { id := 0, book := "Genesis", chapter := 1, verse := 1, transcript_snippet := "Genesis 1:1",
        confidence_score := mkRat 19 20, source := "fast", status := "pending",
        validation_status := "unknown", is_partial := false, review_required := false,
        explanation := "Matched and validated by fast extractor", timestamp := 0 }
      (by decide)
    exact ⟨rfl, h.2.1, le_trans (by decide) h.2.2.1, h.2.2.2.1, le_trans (by decide) h.2.2.2.2⟩

/-! ## C5 — unknown-book discard and invalid_chapter retention -/

/-- An item whose (titled) book is unknown contributes nothing. -/
theorem parseGeminiItem_unknown {t : String} {item : GeminiItem}
    (h : is_known_book (pyTitle (item.book.getD "")) = false) :
    parseGeminiItem t item = none := by
  simp only [parseGeminiItem]
  split
  · rw [h]
    simp
  · rfl

/-- C5: per item returned by the LLM, (1) an unknown book is discarded
silently — a response naming only unknown books yields an empty
candidate list; (2) a complete item with a known book whose chapter
exceeds `max_chapter(book)` is kept, with
`validation_status = "invalid_chapter"`. -/
theorem slow_validator_book_gate_and_invalid_chapter :
    (∀ (t : String) (items : List GeminiItem),
        (∀ item ∈ items, is_known_book (pyTitle (item.book.getD "")) = false) →
        parseGeminiItems t items = []) ∧
    (∀ (t : String) (item : GeminiItem),
        pyTitle (item.book.getD "") ≠ "" → item.chapter.getD 0 ≠ 0 → item.verse.getD 0 ≠ 0 →
        is_known_book (pyTitle (item.book.getD "")) = true →
        item.chapter.getD 0 > (chaptersGetD (pyTitle (item.book.getD "")) 0 : Int) →
        ∃ c, parseGeminiItem t item = some c ∧ c.validation_status = "invalid_chapter" ∧
          c.book = pyTitle (item.book.getD "") ∧ c.chapter = item.chapter.getD 0 ∧
          c.verse = item.verse.getD 0) := by
  constructor
  · intro t items hall
    induction items with
    | nil => rfl
    | cons item rest ih =>
      rw [parseGeminiItems, List.filterMap_cons_none]
      · exact ih fun i hi => hall i (List.mem_cons_of_mem item hi)
      · exact parseGeminiItem_unknown (hall item (List.mem_cons_self item rest))
  · intro t item hb hch hv hknown hgt
    have hdd : chaptersGetD (pyTitle (item.book.getD "")) 999 =
        chaptersGetD (pyTitle (item.book.getD "")) 0 :=
      chaptersGetD_eq_of_known hknown 999 0
    have hval : is_valid_reference (pyTitle (item.book.getD "")) (item.chapter.getD 0) = false := by
      unfold is_valid_reference
      rw [hdd]
      simp only [Bool.not_eq_false']
      exact decide_eq_true hgt
    refine ⟨{ id := 0, book := pyTitle (item.book.getD ""), chapter := item.chapter.getD 0,
              verse := item.verse.getD 0, transcript_snippet := t,
              confidence_score := item.certainty.getD (mkRat 1 2), source := "slow",
              status := "pending", validation_status := "invalid_chapter",
              is_partial := !decide (item.certainty.getD (mkRat 1 2) ≥ mkRat 4 5),
              review_required := decide (item.certainty.getD (mkRat 1 2) < mkRat 4 5),
              explanation := item.explanation.getD "No explanation provided",
              timestamp := 0 }, ?_, rfl, rfl, rfl, rfl⟩
    simp only [parseGeminiItem]
    rw [if_pos ⟨hb, hch, hv⟩, if_pos hknown, hval]
    simp

/-- Witness for `slow_validator_book_gate_and_invalid_chapter`: a
response naming only the unknown book "Atlantis" yields no candidate,
and the item `{book: "Genesis", chapter: 99, verse: 3}` is kept with
`validation_status = "invalid_chapter"`. -/
theorem slow_validator_book_gate_witness :
    parseGeminiItems "t" [⟨some "Atlantis", some 3, some 16, some (mkRat 9 10), some "x"⟩] = [] ∧
    ∃ c, parseGeminiItem "t" (⟨some "Genesis", some 99, some 3, none, none⟩ : GeminiItem) = some c ∧
      c.validation_status = "invalid_chapter" ∧
      c.book = pyTitle ((some "Genesis").getD "") ∧
      c.chapter = (some (99 : Int)).getD 0 ∧ c.verse = (some (3 : Int)).getD 0 := by
  constructor
  · exact slow_validator_book_gate_and_invalid_chapter.1 "t"
      [⟨some "Atlantis", some 3, some 16, some (mkRat 9 10), some "x"⟩]
      (by decide)
  · exact slow_validator_book_gate_and_invalid_chapter.2 "t"
      ⟨some "Genesis", some 99, some 3, none, none⟩
      (by decide) (by decide) (by decide) (by decide) (by decide)

/-! ## C6 — shape of a successful fast extraction -/

/-- The exact value `0.95`. -/
theorem mkRat_19_20 : (mkRat 19 20 : ℚ) = 0.95 := by
  rw [Rat.mkRat_eq_div]
  norm_num

/-- The candidate the fast extractor returns for `"Genesis 1:1"`. -/
def fastGenCand : VerseCandidate :=
  { id := 0, book := "Genesis", chapter := 1, verse := 1, transcript_snippet := "Genesis 1:1",
    confidence_score := mkRat 19 20, source := "fast", status := "pending",
    validation_status := "unknown", is_partial := false, review_required := false,
    explanation := "Matched and validated by fast extractor", timestamp := 0 }

/-- C6: whenever the fast extractor succeeds it returns exactly one
candidate, with confidence 0.95, source "fast", `is_partial = false`,
`review_required = false`, and book/chapter/verse valid against the
catalog; on `"Genesis 1:1"` it returns (Genesis, 1, 1, fast). -/
theorem fast_extractor_success_shape :
    (∀ (t : String) (c : VerseCandidate), extract_candidate t = some c →
        c.confidence_score = 0.95 ∧ c.source = "fast" ∧ c.is_partial = false ∧
        c.review_required = false ∧ bookInChapters c.book = true ∧
        1 ≤ c.chapter ∧ c.chapter ≤ (chaptersGetD c.book 0 : Int) ∧
        1 ≤ c.verse ∧ c.verse ≤ (verseCountD c.book c.chapter : Int)) ∧
    extract_candidate "Genesis 1:1" = some fastGenCand := by
  constructor
  · intro t c h
    obtain ⟨h1, h2, -, -, h5, h6, -, h8, h9, h10, h11, h12⟩ := extract_candidate_sound h
    rw [mkRat_19_20] at h1
    exact ⟨h1, h2, h5, h6, h8, h9, h10, h11, h12⟩
  · decide

/-- Witness for `fast_extractor_success_shape`, applying it at the
transcript `"Genesis 1:1"`. -/
theorem fast_extractor_success_shape_witness :
    fastGenCand.confidence_score = 0.95 ∧ fastGenCand.source = "fast" ∧
    fastGenCand.is_partial = false ∧ fastGenCand.review_required = false ∧
    bookInChapters fastGenCand.book = true ∧
    1 ≤ fastGenCand.chapter ∧ fastGenCand.chapter ≤ (chaptersGetD fastGenCand.book 0 : Int) ∧
    1 ≤ fastGenCand.verse ∧ fastGenCand.verse ≤ (verseCountD fastGenCand.book fastGenCand.chapter : Int) :=
  fast_extractor_success_shape.1 "Genesis 1:1" fastGenCand (by decide)

/-! ## C7 — the fast extractor never yields an out-of-range reference -/

/-- C7: no candidate the fast extractor yields has an unknown book, a
chapter out of range, or a verse out of range (a match failing a check
falls through to the next pattern or to `none`); and `"Exodus 999:1"`
yields no candidate. -/
theorem fast_extractor_rejects_out_of_range :
    (∀ (t : String) (c : VerseCandidate), extract_candidate t = some c →
        ¬ (bookInChapters c.book = false ∨ c.chapter < 1 ∨
           c.chapter > (chaptersGetD c.book 0 : Int) ∨ c.verse < 1 ∨
           c.verse > (verseCountD c.book c.chapter : Int))) ∧
    extract_candidate "Exodus 999:1" = none := by
  constructor
  · intro t c h hbad
    obtain ⟨-, -, -, -, -, -, -, h8, h9, h10, h11, h12⟩ := extract_candidate_sound h
    rcases hbad with hb | hb | hb | hb | hb
    · rw [h8] at hb
      exact absurd hb (by simp)
    · omega
    · omega
    · omega
    · omega
  · decide

/-- Witness for `fast_extractor_rejects_out_of_range`, applying it at
the transcript `"Genesis 1:1"`. -/
theorem fast_extractor_rejects_witness :
    ¬ (bookInChapters fastGenCand.book = false ∨ fastGenCand.chapter < 1 ∨
       fastGenCand.chapter > (chaptersGetD fastGenCand.book 0 : Int) ∨ fastGenCand.verse < 1 ∨
       fastGenCand.verse > (verseCountD fastGenCand.book fastGenCand.chapter : Int)) :=
  fast_extractor_rejects_out_of_range.1 "Genesis 1:1" fastGenCand (by decide)

/-! ## C4 — retry/backoff and failure propagation on the slow path -/

/-- C4 counterexample: `validate_with_gemini` performs its single
`requests.post` outside any try/except, so a connection-level failure
propagates to the caller as an exception instead of an empty result. -/
theorem slow_validator_propagates_exception :
    validate_with_gemini true PostOutcome.exn "hello" = Except.error () := by
  rfl

/-- The attempt loop under all-transient outcomes, for any window of
the attempt counter. -/
theorem groqLoop_all_transient (oracle : Nat → GroqOutcome) (retries : Nat) :
    ∀ (remaining attempt : Nat), attempt + remaining = retries →
    (∀ i, attempt ≤ i → i < retries → (oracle i).isTransientNet = true) →
    groqLoop oracle retries attempt remaining =
      { result := none, sleeps := (List.range' attempt (remaining - 1)).map fun i => 2 ^ i } := by
  intro remaining
  induction remaining with
  | zero => intro attempt _ _; rfl
  | succ remaining ih =>
    intro attempt hsum hall
    have htr := hall attempt (le_refl attempt) (by omega)
    cases ho : oracle attempt with
    | ok b c v => rw [ho] at htr; simp [GroqOutcome.isTransientNet] at htr
    | notVerse => rw [ho] at htr; simp [GroqOutcome.isTransientNet] at htr
    | emptyContent => rw [ho] at htr; simp [GroqOutcome.isTransientNet] at htr
    | parseFail => rw [ho] at htr; simp [GroqOutcome.isTransientNet] at htr
    | exnConn =>
      simp only [groqLoop, ho]
      rw [ih (attempt + 1) (by omega) (fun i hi hi2 => hall i (by omega) hi2)]
      by_cases hlt : attempt < retries - 1
      · rw [if_pos hlt]
        rw [Nat.succ_sub_one]
        have hrem : remaining = (remaining - 1) + 1 := by omega
        conv_rhs => rw [hrem]
        simp [List.range']
      · rw [if_neg hlt]
        have h0 : remaining = 0 := by omega
        subst h0
        simp [List.range']
    | httpError =>
      simp only [groqLoop, ho]
      rw [ih (attempt + 1) (by omega) (fun i hi hi2 => hall i (by omega) hi2)]
      by_cases hlt : attempt < retries - 1
      · rw [if_pos hlt]
        rw [Nat.succ_sub_one]
        have hrem : remaining = (remaining - 1) + 1 := by omega
        conv_rhs => rw [hrem]
        simp [List.range']
      · rw [if_neg hlt]
        have h0 : remaining = 0 := by omega
        subst h0
        simp [List.range']

/-- C4 (amended): the retry behaviour the claim describes lives in
`OnlineGroqDetector.detect`: transient network/HTTP failures are
retried with exponential backoff `2 ^ attempt` seconds (1s, then 2s,
…), the attempt count is bounded (`retries`, default 2), and after
exhausting the attempts the caller receives an empty result, never an
exception.  `validate_with_gemini` — the slow validator the listener
invokes — instead makes a single request with no retry: every
non-raising outcome is absorbed into a plain result, but a raising
`requests.post` propagates (see the counterexample). -/
theorem groq_retry_backoff_bounded :
    (∀ (oracle : Nat → GroqOutcome) (retries : Nat),
        (∀ i, i < retries → (oracle i).isTransientNet = true) →
        groqDetect true retries oracle =
          { result := none, sleeps := (List.range (retries - 1)).map fun i => 2 ^ i }) ∧
    (∀ (t : String) (status : Nat) (body : GeminiBody),
        ∃ l, validate_with_gemini true (PostOutcome.resp status body) t = Except.ok l) := by
  constructor
  · intro oracle retries hall
    unfold groqDetect
    rw [if_pos rfl]
    rw [groqLoop_all_transient oracle retries retries 0 (by omega)
        (fun i _ hi2 => hall i hi2)]
    rw [List.range_eq_range']
  · intro t status body
    by_cases hs : status = 200
    · subst hs
      cases body with
      | malformed => exact ⟨[], by simp [validate_with_gemini]⟩
      | reviewRequired => exact ⟨[], by simp [validate_with_gemini]⟩
      | itemsDict item => exact ⟨parseGeminiItems t [item], by simp [validate_with_gemini]⟩
      | items items => exact ⟨parseGeminiItems t items, by simp [validate_with_gemini]⟩
    · exact ⟨[], by simp [validate_with_gemini, hs]⟩

/-- Witness for `groq_retry_backoff_bounded`: with the default
`retries = 2` and every attempt failing with a connection error, the
detector makes both attempts, sleeps 1 second between them (the start
of the 1s/2s/… doubling schedule) and returns no result; a non-200
response of the Gemini call is absorbed into an `ok` result. -/
theorem groq_retry_backoff_bounded_witness :
    groqDetect true GROQ_DEFAULT_RETRIES (fun _ => GroqOutcome.exnConn) =
      { result := none, sleeps := [1] } ∧
    ∃ l, validate_with_gemini true (PostOutcome.resp 500 GeminiBody.malformed) "t" = Except.ok l := by
  constructor
  · have h := groq_retry_backoff_bounded.1 (fun _ => GroqOutcome.exnConn)
      GROQ_DEFAULT_RETRIES (fun i _ => rfl)
    simpa using h
  · exact groq_retry_backoff_bounded.2 "t" 500 GeminiBody.malformed

/-! ## C10 — the duplicate-transcript guard never suppresses an empty transcript -/

/-- When the guard does not fire, no branch of the pipeline reports a
skip. -/
theorem process_not_skipped (ai : Bool) (t : String)
    (s : ListenerState) (h : ¬ (t ≠ "" ∧ s.last_processed_transcript = some t)) :
    (process_transcript_logic ai t s).skipped = false := by
  unfold process_transcript_logic
  rw [if_neg h]
  cases hx : extract_candidate t with
  | some c => simp
  | none =>
    by_cases hai : ai = true
    · simp [hai]
    · rw [Bool.not_eq_true] at hai
      simp [hai]

/-- C10: the duplicate-transcript guard skips a run exactly when the
transcript is non-empty and equal to the previously processed one; an
empty transcript is never suppressed, so a run on `""` — even
immediately after another `""` run — executes the pipeline, and with
AI enabled it reaches the slow-validator call (the fast extractor
yields nothing on `""`). -/
theorem empty_transcript_never_deduped :
    (∀ (ai : Bool) (t : String) (s : ListenerState),
        (process_transcript_logic ai t s).skipped = true ↔
          (t ≠ "" ∧ s.last_processed_transcript = some t)) ∧
    (∀ (s : ListenerState),
        (process_transcript_logic true "" s).skipped = false ∧
        (process_transcript_logic true "" s).slow_called = true ∧
        (process_transcript_logic true "" s).state.last_processed_transcript = some "") := by
  constructor
  · intro ai t s
    constructor
    · intro hsk
      by_contra h
      rw [process_not_skipped ai t s h] at hsk
      exact absurd hsk (by simp)
    · intro h
      unfold process_transcript_logic
      rw [if_pos h]
  · intro s
    have hguard : ¬ (("" : String) ≠ "" ∧ s.last_processed_transcript = some "") := by
      intro h
      exact h.1 rfl
    refine ⟨process_not_skipped true "" s hguard, ?_, ?_⟩
    · unfold process_transcript_logic
      rw [if_neg hguard]
      have hx : extract_candidate "" = none := by decide
      rw [hx]
      rfl
    · unfold process_transcript_logic
      rw [if_neg hguard]
      have hx : extract_candidate "" = none := by decide
      rw [hx]
      rfl

/-! ## C3 — the last-confirmed context is never mutated -/

/-- C3: LastConfirmedContext is mutated only when a candidate is
successfully accepted — in the current source it is in fact never
mutated at all: its only write, `set_last_confirmed` at listener line
268, sits inside the slow-candidate loop, which is unreachable because
the `validate_with_gemini` call at line 248 raises `TypeError`
(unexpected keyword arguments `api_key`/`model_id`) first.  In
particular, a slow-path run — including one whose candidate would
require user review/confirmation — leaves LastConfirmedContext
unchanged.  The second conjunct pins the error path down exactly: a
run raises iff it was not skipped, the fast extractor found nothing,
and AI assistance is enabled. -/
theorem last_confirmed_never_mutated :
    ∀ (ai : Bool) (t : String) (s : ListenerState),
      (process_transcript_logic ai t s).state.last_confirmed = s.last_confirmed ∧
      ((process_transcript_logic ai t s).raised = true ↔
        ((process_transcript_logic ai t s).skipped = false ∧
          extract_candidate t = none ∧ ai = true)) := by
  intro ai t s
  by_cases hguard : t ≠ "" ∧ s.last_processed_transcript = some t
  · unfold process_transcript_logic
    rw [if_pos hguard]
    exact ⟨rfl, by simp⟩
  · unfold process_transcript_logic
    rw [if_neg hguard]
    cases hx : extract_candidate t with
    | some c =>
      exact ⟨rfl, by simp [hx]⟩
    | none =>
      by_cases hai : ai = true
      · subst hai
        simp [hx]
      · rw [Bool.not_eq_true] at hai
        subst hai
        simp [hx]

/-! ## C8 — debounce: drop equal-or-lower, replace strictly-higher -/

theorem rdLookup_map_update (rd : List (VKey × ℚ × ℚ)) (k : VKey) (v : ℚ × ℚ)
    (h : (rd.find? fun p => p.1 == k).isSome = true) :
    rdLookup (rd.map fun p => if p.1 == k then (k, v) else p) k = some v := by
  induction rd with
  | nil => simp [List.find?] at h
  | cons p rest ih =>
    by_cases hp : (p.1 == k) = true
    · simp only [rdLookup, List.map_cons, if_pos hp]
      rw [List.find?_cons_of_pos _ (by simp)]
      rfl
    · simp only [rdLookup, List.map_cons, if_neg hp]
      rw [List.find?_cons_of_neg _ (by simpa using hp)]
      rw [List.find?_cons_of_neg _ (by simpa using hp)] at h
      exact ih h

theorem rdLookup_rdInsert (rd : List (VKey × ℚ × ℚ)) (k : VKey) (v : ℚ × ℚ) :
    rdLookup (rdInsert rd k v) k = some v := by
  unfold rdInsert
  by_cases h : (rd.find? fun p => p.1 == k).isSome = true
  · rw [if_pos h]
    exact rdLookup_map_update rd k v h
  · rw [if_neg h]
    have hnone : (rd.find? fun p => p.1 == k) = none := by
      cases hf : rd.find? fun p => p.1 == k
      · rfl
      · rw [hf] at h
        simp at h
    unfold rdLookup
    rw [List.find?_append, hnone]
    simp

/-- C8: for a detection of a key already seen within the 15-second
debounce window: equal-or-lower confidence is dropped with no state
change at all; strictly higher confidence replaces the stored
confidence for the key and, when the key is already displayed,
produces no duplicate output entry. -/
theorem debounce_drop_or_replace :
    ∀ (settings : AWSettings) (now ts pc : ℚ) (vd : QueueEntry) (s : AWState),
      s.confirmation_popup = none →
      ¬ (vd.book = "" ∨ vd.chapter = 0 ∨ vd.verse = 0) →
      rdLookup s.recent_detections (mkKey vd) = some (ts, pc) →
      qsub now ts < 15 →
      ((vd.confidence ≤ pc → check_verse_queue_item settings now vd s = s) ∧
       (pc < vd.confidence →
         rdLookup (check_verse_queue_item settings now vd s).recent_detections (mkKey vd) =
           some (now, vd.confidence) ∧
         ((s.live_history.any fun v =>
             v.book == vd.book && v.chapter == vd.chapter && v.verse == vd.verse) = true →
           (check_verse_queue_item settings now vd s).live_history = s.live_history ∧
           (check_verse_queue_item settings now vd s).outputs = s.outputs))) := by
  intro settings now ts pc vd s hpop hvalid hrd hwin
  constructor
  · intro hle
    simp only [check_verse_queue_item, hpop, hrd]
    rw [if_neg (by simp), if_neg hvalid]
    rw [if_pos (by rw [decide_eq_true hwin, decide_eq_true hle]; rfl)]
  · intro hgt
    have hdrop : (decide (qsub now ts < 15) && decide (vd.confidence ≤ pc)) = false := by
      rw [decide_eq_false (not_le.mpr hgt)]
      simp
    have hrdres : (check_verse_queue_item settings now vd s).recent_detections =
        rdInsert s.recent_detections (mkKey vd) (now, vd.confidence) := by
      simp only [check_verse_queue_item, hpop, hrd]
      rw [if_neg (by simp), if_neg hvalid, if_neg (by rw [hdrop]; simp)]
      split
      · rfl
      · split
        · rfl
        · split
          · rfl
          · rfl
    refine ⟨?_, ?_⟩
    · rw [hrdres]
      exact rdLookup_rdInsert _ _ _
    · intro hhist
      simp only [check_verse_queue_item, hpop, hrd]
      rw [if_neg (by simp), if_neg hvalid, if_neg (by rw [hdrop]; simp)]
      split
      · exact ⟨rfl, rfl⟩
      · exact ⟨rfl, rfl⟩

/-- A queue entry for (John, 3, 16) with the given confidence. -/
def c8vd (conf : ℚ) : QueueEntry :=
  { book := "John", chapter := 3, verse := 16, reference := "John 3:16", raw_transcript := "",
    confidence := conf, source := "fast", timestamp := 0, explanation := "" }

/-- A window state that detected (John, 3, 16) with confidence 60 at
time 0 and displayed it. -/
def c8s : AWState :=
  { confirmation_popup := none, recent_verse := none, confirmation_buffer := [],
    live_history := [c8vd 60], rejected_keys := [],
    recent_detections := [(("John", 3, 16), (0, 60))], outputs := [("John", 3, 16)] }

/-- Witness for `debounce_drop_or_replace`, at the spec's own example:
(John, 3, 16) stored with confidence 60; a second detection within 15s
at confidence 50 is dropped with no state change, and one at 90
replaces the stored confidence without a duplicate output entry. -/
theorem debounce_drop_or_replace_witness :
    check_verse_queue_item ⟨true, 70⟩ 5 (c8vd 50) c8s = c8s ∧
    rdLookup (check_verse_queue_item ⟨true, 70⟩ 5 (c8vd 90) c8s).recent_detections
        (mkKey (c8vd 90)) = some (5, 90) ∧
    (check_verse_queue_item ⟨true, 70⟩ 5 (c8vd 90) c8s).live_history = c8s.live_history ∧
    (check_verse_queue_item ⟨true, 70⟩ 5 (c8vd 90) c8s).outputs = c8s.outputs := by
  have hdrop := (debounce_drop_or_replace ⟨true, 70⟩ 5 0 60 (c8vd 50) c8s
      rfl (by decide) (by decide) (by decide)).1 (by decide)
  have hrepl := (debounce_drop_or_replace ⟨true, 70⟩ 5 0 60 (c8vd 90) c8s
      rfl (by decide) (by decide) (by decide)).2 (by decide)
  exact ⟨hdrop, hrepl.1, (hrepl.2 (by decide)).1, (hrepl.2 (by decide)).2⟩

/-! ## C9 — a rejected key can be re-displayed (key-type mismatch)

`check_verse_queue` probes `rejected_keys` with the tuple
`(book, int(chapter), int(verse))`, but `_on_confirmation_result`
populates it with the string `f"{book} {chapter}:{verse}"` from
`_get_verse_key`.  A tuple never equals a string, so the check is dead
and a rejected key is accepted again on re-detection — against the
code's own comment ("Skip if already rejected") and the tuple-keyed
implementation in `qt_ui/main_window.py`. -/

/-- The initial window state. -/
def c9s0 : AWState :=
  { confirmation_popup := none, recent_verse := none, confirmation_buffer := [],
    live_history := [], rejected_keys := [], recent_detections := [], outputs := [] }

/-- The session trace of the bug: (John, 3, 16) detected at confidence
60 (below the 70 threshold, so a confirmation popup opens), the user
rejects it, and 20 seconds later it is re-detected at confidence 90. -/
def c9events : List AWEvent :=
  [AWEvent.detect 0 (c8vd 60), AWEvent.confirmResult false, AWEvent.detect 20 (c8vd 90)]

/-- C9 failing run: after the user rejects (John, 3, 16), its string
key is in `rejected_keys` and nothing has been output; the later
re-detection is nevertheless accepted, displayed and added to the live
history — the tuple-vs-string probe of `rejected_keys` never fires. -/
theorem rejected_key_redisplay_bug :
    (awRun ⟨true, 70⟩ c9s0 (List.take 2 c9events)).rejected_keys = [PyKey.str "John 3:16"] ∧
    (awRun ⟨true, 70⟩ c9s0 (List.take 2 c9events)).outputs = [] ∧
    (awRun ⟨true, 70⟩ c9s0 c9events).rejected_keys = [PyKey.str "John 3:16"] ∧
    (awRun ⟨true, 70⟩ c9s0 c9events).outputs = [("John", 3, 16)] ∧
    (awRun ⟨true, 70⟩ c9s0 c9events).live_history = [c8vd 90] := by
  decide

end VersePilot
